import Mathlib

/-!
# Verification of the `backtester` event-driven trading engine

Shallow embedding of the core of the `backtester` repository
(`src/backtester/...`) in Lean 4, together with theorems settling the
specification claims about it.

Conventions of the embedding:
* Python floats are modelled as `ℚ` (all the arithmetic under scrutiny is
  exact field arithmetic: price times quantity, commissions, running sums).
* Python `None`-returning lookups are modelled with `Option`.
* Python exceptions escaping a call are modelled with `Except PyError` (or,
  for the in-place mutating `Portfolio` methods, with a `Portfolio × Option
  PyError` pair: the returned state carries the mutations that had already
  happened when the exception was raised).
* Python `dict`s keyed by ticker are modelled as association lists
  (`List (String × _)`); insertion appends, `pop` removes the key, lookup
  takes the entry for the key.
-/

namespace Backtester

/-- The Python-level failures that the embedded code can raise.  `typeError`
stands for the Python built-in `TypeError` (e.g. `dict & str`, `0.5 * None`);
`keyError` for a missing dictionary key; `invalidQuantity` for the
`InvalidQuantity` validation error of the Position ledger in the spec. -/
inductive PyError
  | typeError
  | keyError
  | invalidQuantity
deriving DecidableEq

/-- From `src/backtester/event.py`: the event taxonomy.  Each constructor carries
exactly the fields its Python `__init__` stores (cosmetic fields such as
`period_readable` and the constant `type` tag are omitted; the tag is the
constructor itself).  `FillEvent.timestamp` is an `Option` because the
simulated execution handler fills it from `get_last_timestamp`, which can
return `None`. -/
inductive Event
  | bar (ticker : String) (time : ℕ) (period : ℕ)
      (open_price high_price low_price close_price volume : ℚ)
  | tick (ticker : String) (time : ℕ) (bid ask : ℚ)
  | order (ticker : String) (action : String) (quantity : ℚ)
  | fill (timestamp : Option ℕ) (ticker : String) (action : String)
      (quantity : ℚ) (exchange : String) (price : ℚ) (commission : ℚ)
  | eod (time : ℕ)
deriving DecidableEq

/-- Embeds `OrderEvent.__init__` (`src/backtester/event.py`): stores the fields and
performs no validation whatsoever, so construction always succeeds.  The
result type is `Except PyError Event` only so that the claimed
`InvalidAction` failure is statable; the source never raises. -/
def mkOrderEvent (ticker action : String) (quantity : ℚ) : Except PyError Event :=
  .ok (.order ticker action quantity)

/-- Embeds `FillEvent.__init__` (`src/backtester/event.py`): stores the fields and
performs no validation, so construction always succeeds. -/
def mkFillEvent (timestamp : Option ℕ) (ticker action : String)
    (quantity : ℚ) (exchange : String) (price commission : ℚ) :
    Except PyError Event :=
  .ok (.fill timestamp ticker action quantity exchange price commission)

/-- An entry of `PriceHandler.tickers[ticker]` (`src/backtester/price_handler`):
a Python dict whose keys `"bid"`, `"ask"`, `"close"`, `"adj_close"`,
`"timestamp"` may each be present or absent, modelled as `Option` fields. -/
structure TickerEntry where
  bid : Option ℚ := none
  ask : Option ℚ := none
  close : Option ℚ := none
  adj_close : Option ℚ := none
  timestamp : Option ℕ := none
deriving DecidableEq

/-- The state of a price handler: the `tickers` map plus the value of
`istick()` for the concrete subclass (`False` for `OHLCVPriceHandler`, the
only concrete handler in the source). -/
structure PriceHandlerState where
  tickers : List (String × TickerEntry)
  istick : Bool
deriving DecidableEq

/-- Embeds `PriceHandler.get_last_timestamp` (`src/backtester/price_handler/base.py`):
for a subscribed ticker it reads `self.tickers[ticker]["timestamp"]` by plain
indexing, which raises `KeyError` when no timestamp has been stored yet; for
an unsubscribed ticker it logs and returns `None`. -/
def get_last_timestamp (s : PriceHandlerState) (ticker : String) :
    Except PyError (Option ℕ) :=
  match s.tickers.lookup ticker with
  | some entry =>
    match entry.timestamp with
    | some ts => .ok (some ts)
    | none => .error .keyError
  | none => .ok none

/-- Embeds `PriceHandler.get_best_bid_ask` (`src/backtester/price_handler/base.py`).
The source guard reads

  `if "bid" in self.tickers[ticker] & "ask" in self.tickers[ticker]:`

In Python, `&` binds tighter than `in`, so for a subscribed ticker the
subexpression `self.tickers[ticker] & "ask"` (a `dict` bitwise-and a `str`)
is evaluated first and raises `TypeError` unconditionally — whatever the
entry contains, the stored bid/ask is never returned.  Only for an
unsubscribed ticker does the call fall through to the logged
`(None, None)` fallback. -/
def get_best_bid_ask (s : PriceHandlerState) (ticker : String) :
    Except PyError (Option ℚ × Option ℚ) :=
  match s.tickers.lookup ticker with
  | some _ => .error .typeError
  | none => .ok (none, none)

/-- What the source guard of `get_best_bid_ask` was clearly intended to do
(logical conjunction of the two membership tests, as the spec directs):
return the stored bid/ask pair when both are present.  Kept separately from
the faithful `get_best_bid_ask` for comparison. -/
def get_best_bid_ask_intended (s : PriceHandlerState) (ticker : String) :
    Option ℚ × Option ℚ :=
  match s.tickers.lookup ticker with
  | some entry =>
    match entry.bid, entry.ask with
    | some b, some a => (some b, some a)
    | _, _ => (none, none)
  | none => (none, none)

/-- Embeds `PriceHandler.get_last_close` (`src/backtester/price_handler/base.py`):
guarded membership tests (written correctly with nested `if`s in the
source), returning the stored close or `None`. -/
def get_last_close (s : PriceHandlerState) (ticker : String) : Option ℚ :=
  match s.tickers.lookup ticker with
  | some entry => entry.close
  | none => none

/-- Embeds `SimulatedStockExecutionHandler.calculate_commission`
(`src/backtester/execution_handler/simulator.py`):

  `return min(0.5 * fill_price * quantity, max(1.0, 0.005 * quantity))`

When the fill price is `None` (missing price data), the very first
multiplication `0.5 * fill_price` raises `TypeError`, as in Python. -/
def calculate_commission (quantity : ℚ) (fill_price : Option ℚ) :
    Except PyError ℚ :=
  match fill_price with
  | none => .error .typeError
  | some p => .ok (min (1/2 * p * quantity) (max 1 (1/200 * quantity)))

/-- Embeds `SimulatedStockExecutionHandler.execute_order`
(`src/backtester/execution_handler/simulator.py`): for an `ORDER` event,
look up the last timestamp, pick the fill price (ask for `"BOT"`, bid
otherwise, when the handler is tick-based; the last close otherwise),
compute the commission, and produce the single `FillEvent` placed on the
queue.  The returned list is the list of events the call `put`s on the
events queue; an `Except.error` models a Python exception escaping the call
(in which case nothing was enqueued, since `put` is the final statement).
Non-`ORDER` events fall through the `if` and enqueue nothing. -/
def execute_order (s : PriceHandlerState) (ev : Event) :
    Except PyError (List Event) :=
  match ev with
  | .order ticker action quantity =>
    match get_last_timestamp s ticker with
    | .error e => .error e
    | .ok timestamp =>
      let fill_price : Except PyError (Option ℚ) :=
        if s.istick then
          match get_best_bid_ask s ticker with
          | .error e => .error e
          | .ok (bid, ask) => .ok (if action = "BOT" then ask else bid)
        else
          .ok (get_last_close s ticker)
      match fill_price with
      | .error e => .error e
      | .ok none => .error .typeError
      | .ok (some p) =>
        match calculate_commission quantity (some p) with
        | .error e => .error e
        | .ok commission =>
          .ok [.fill timestamp ticker action quantity "Oslo Boers" p commission]
  | _ => .ok []

/-!
## Position ledger

`src/backtester/portfolio.py` imports `Position` from `backtester.position`,
but `position.py` is not among the provided sources.  The definitions below
are therefore modelled from the spec (§3 "Position", §4.2 "Position
Ledger") and from how `portfolio.py` calls them.
-/

/-- Modelled from the spec: the `Position` object of the missing
`backtester/position.py` (spec §3).  `quantity` is signed (positive = long,
negative = short); `commission` is the cumulative commission paid;
`realised_pnl` / `unrealised_pnl` / `market_value` as in the spec. -/
structure Position where
  ticker : String
  quantity : ℚ
  cost_basis : ℚ
  commission : ℚ
  realised_pnl : ℚ
  unrealised_pnl : ℚ
  market_value : ℚ
deriving DecidableEq

/-- Modelled from the spec: `Position.update_market_value(bid, ask)`
(spec §4.2) — a long position marks to bid, a short position marks to ask
(conservative marking); unrealized PnL is recomputed as
`market_value − cost_basis`. -/
def Position.update_market_value (p : Position) (bid ask : ℚ) : Position :=
  let mv := if 0 ≤ p.quantity then p.quantity * bid else p.quantity * ask
  { p with market_value := mv, unrealised_pnl := mv - p.cost_basis }

/-- Modelled from the spec: the `Position` constructor / `open` operation
(spec §4.2), with the argument list used by `Portfolio._add_position`:
`Position(action, ticker, init_quantity, init_price, init_commission, bid,
ask)`.  Sets the initial signed quantity (positive for `"BOT"`, negative
otherwise), cost basis `quantity * price`, records the commission, zero
realized PnL, and computes the initial market value from the given
bid/ask.  The spec states no quantity validation for the open operation. -/
def Position.create (action ticker : String)
    (init_quantity init_price init_commission bid ask : ℚ) : Position :=
  let q := if action = "BOT" then init_quantity else -init_quantity
  Position.update_market_value
    { ticker := ticker, quantity := q, cost_basis := q * init_price,
      commission := init_commission, realised_pnl := 0,
      unrealised_pnl := 0, market_value := 0 }
    bid ask

/-- Modelled from the spec: `Position.transact_shares` (spec §4.2
`transact`) — quantity and price must be positive and commission
non-negative, otherwise the call fails with `InvalidQuantity`.  A trade in
the direction of the current exposure extends the cost basis by
`±quantity * price`; a trade against it realizes PnL for the closed portion
at the average cost basis, and a sign flip re-opens a fresh cost basis for
the residual quantity at the trade price.  Commission is accumulated on the
position (it never enters realized PnL; spec §8 end-to-end scenario). -/
def Position.transact_shares (p : Position) (action : String)
    (quantity price commission : ℚ) : Except PyError Position :=
  if quantity ≤ 0 ∨ price ≤ 0 ∨ commission < 0 then .error .invalidQuantity
  else
    let d := if action = "BOT" then quantity else -quantity
    let Q := p.quantity
    let p1 := { p with commission := p.commission + commission }
    if 0 ≤ Q * d then
      -- same direction (or flat): increasing exposure
      .ok { p1 with quantity := Q + d, cost_basis := p1.cost_basis + d * price }
    else
      -- opposite direction: close min(quantity, |Q|) units at average cost
      let avg := p1.cost_basis / Q
      let closed := min quantity |Q|
      let realized := if 0 < Q then (price - avg) * closed else (avg - price) * closed
      let newCb := if quantity ≤ |Q| then avg * (Q + d) else (Q + d) * price
      .ok { p1 with quantity := Q + d, cost_basis := newCb,
                    realised_pnl := p1.realised_pnl + realized }

/-!
## Portfolio

`src/backtester/portfolio.py`.  The only concrete price handler in the
source (`OHLCVPriceHandler`) is bar-based (`istick()` is `False`), so every
price lookup inside `Portfolio` takes the `get_last_close` branch and sets
`bid = ask = close_price`.  The portfolio operations are parameterized by
the close-price snapshot `close : String → ℚ`, modelling
`get_last_close` over subscribed tickers with stored closes.
-/

/-- The `Portfolio.__init__` state (`src/backtester/portfolio.py`). -/
structure Portfolio where
  init_cash : ℚ
  equity : ℚ
  cur_cash : ℚ
  positions : List (String × Position)
  closed_positions : List Position
  realised_pnl : ℚ
  unrealised_pnl : ℚ
deriving DecidableEq

/-- Embeds `Portfolio.__init__`: no positions, all values reset to the initial
cash, no PnL. -/
def Portfolio.create (cash : ℚ) : Portfolio :=
  { init_cash := cash, equity := cash, cur_cash := cash, positions := [],
    closed_positions := [], realised_pnl := 0, unrealised_pnl := 0 }

/-- Embeds `Portfolio.update_portfolio`: resets `unrealised_pnl` and sets
`equity = realised_pnl + init_cash`, then for every active position updates
its market value from the current price (`bid = ask = close` for the
bar-based handler) and accumulates
`equity += market_value − cost_basis + realised_pnl` and
`unrealised_pnl += position.unrealised_pnl`.  Each loop iteration touches
only its own ticker, so the loop is the map-then-sum below. -/
def Portfolio.update_portfolio (close : String → ℚ) (p : Portfolio) : Portfolio :=
  let updated := p.positions.map
    (fun e => (e.1, e.2.update_market_value (close e.1) (close e.1)))
  { p with
    positions := updated,
    unrealised_pnl := (updated.map (fun e => e.2.unrealised_pnl)).sum,
    equity := p.realised_pnl + p.init_cash +
      (updated.map
        (fun e => e.2.market_value - e.2.cost_basis + e.2.realised_pnl)).sum }

/-- Embeds `Portfolio._add_position`: when the ticker is not yet held, build a new
`Position` from the current price and append it to the map, then call
`update_portfolio`; when the ticker is already held, log and change
nothing (the recoverable `DuplicatePosition` of the spec). -/
def Portfolio.add_position (close : String → ℚ) (action ticker : String)
    (quantity price commission : ℚ) (p : Portfolio) : Portfolio :=
  match p.positions.lookup ticker with
  | none =>
    let pos := Position.create action ticker quantity price commission
      (close ticker) (close ticker)
    Portfolio.update_portfolio close
      { p with positions := p.positions ++ [(ticker, pos)] }
  | some _ => p

/-- Embeds `Portfolio._modify_position`: when the ticker is held, transact the
shares on its position, refresh the market value of that position, pop the
position into `closed_positions` (adding its realized PnL to the
portfolio-level one) exactly when its quantity reached zero, and finish with
`update_portfolio`.  When the ticker is not held, log and change nothing
(the recoverable `MissingPosition` of the spec).  An `InvalidQuantity` raised by
`transact_shares` escapes before any state is mutated; the second
component of the pair carries such an escaped exception. -/
def Portfolio.modify_position (close : String → ℚ) (action ticker : String)
    (quantity price commission : ℚ) (p : Portfolio) :
    Portfolio × Option PyError :=
  match p.positions.lookup ticker with
  | some pos =>
    match pos.transact_shares action quantity price commission with
    | .error e => (p, some e)
    | .ok pos1 =>
      let pos2 := pos1.update_market_value (close ticker) (close ticker)
      let written := p.positions.map (fun e => if e.1 = ticker then (e.1, pos2) else e)
      let p1 := { p with positions := written }
      let p2 :=
        if pos2.quantity = 0 then
          { p1 with
            positions := p1.positions.filter (fun e => e.1 != ticker),
            realised_pnl := p1.realised_pnl + pos2.realised_pnl,
            closed_positions := p1.closed_positions ++ [pos2] }
        else p1
      (Portfolio.update_portfolio close p2, none)
  | none => (p, none)

/-- Embeds `Portfolio.transact_position`: first apply the cash delta — `"BOT"`
debits `quantity * price + commission`, `"SLD"` credits
`quantity * price - commission`, any other action leaves cash alone — then
route to `_add_position` when the ticker is absent and to
`_modify_position` otherwise.  The cash update and the routing are guarded
independently, exactly as in the source. -/
def Portfolio.transact_position (close : String → ℚ) (action ticker : String)
    (quantity price commission : ℚ) (p : Portfolio) :
    Portfolio × Option PyError :=
  let p1 :=
    if action = "BOT" then
      { p with cur_cash := p.cur_cash - (quantity * price + commission) }
    else if action = "SLD" then
      { p with cur_cash := p.cur_cash + (quantity * price - commission) }
    else p
  match p1.positions.lookup ticker with
  | none => (Portfolio.add_position close action ticker quantity price commission p1, none)
  | some _ => Portfolio.modify_position close action ticker quantity price commission p1

/-!
## Session loop

`src/backtester/trading_session.py`, `TradingSession._run_session`: a
single loop over one FIFO `events_queue`.  Each iteration either pops the
head of the queue and dispatches it (handlers may `put` new events, which
go to the tail of the queue), or — only when the queue is empty — asks the
price handler to `stream_next()` the next external event, which is stored
and `put` on the queue; when the stream is exhausted `continue_backtest`
becomes false and the loop ends.
-/

/-- The event-dispatch loop of `TradingSession._run_session`, generic in
the handler state `σ`, the dispatch function `handle` (returning the new
state and the events the dispatch `put` on the queue, or a raised
exception) and the `store` action of `stream_next`.  `fuel` bounds the
number of loop iterations; the result is the trace of dispatched events in
dispatch order.  A raised exception aborts the loop after the offending
dispatch, mirroring the absence of any `try/except` around the dispatch
table. -/
def runLoop {σ : Type} (handle : σ → Event → Except PyError (σ × List Event))
    (store : σ → Event → σ) :
    ℕ → σ → List Event → List Event → List Event
  | 0, _, _, _ => []
  | fuel + 1, s, queue, stream =>
    match queue with
    | e :: rest =>
      match handle s e with
      | .error _ => [e]
      | .ok (s1, produced) =>
        e :: runLoop handle store fuel s1 (rest ++ produced) stream
    | [] =>
      match stream with
      | [] => []
      | ev :: srest => runLoop handle store fuel (store s ev) [ev] srest

/-- The dispatch table of `_run_session`, with the strategy callbacks as
parameters (the `Strategy` base class is abstract; each callback returns
the orders it `put`s on the queue).  `BAR`/`TICK`/`EOD` go to the strategy
(the `EOD` branch additionally updates the portfolio and statistics, which
place nothing on the queue); `ORDER` goes to
`SimulatedStockExecutionHandler.execute_order`; `FILL` goes to
`PortfolioHandler.on_fill`, which mutates only the portfolio and enqueues
nothing (`src/backtester/portfolio_handler.py`). -/
def sessionHandle (onBar onTick onEod : Event → List Event)
    (s : PriceHandlerState) (ev : Event) :
    Except PyError (PriceHandlerState × List Event) :=
  match ev with
  | .eod _ => .ok (s, onEod ev)
  | .bar .. => .ok (s, onBar ev)
  | .tick .. => .ok (s, onTick ev)
  | .order .. =>
    match execute_order s ev with
    | .error e => .error e
    | .ok fills => .ok (s, fills)
  | .fill .. => .ok (s, [])

/-- Embeds `OHLCVPriceHandler._store_event` as invoked from `stream_next`
(`src/backtester/price_handler/pandas.py`): a streamed `BAR` event stores
its close price and timestamp under its (subscribed) ticker; other events
are not stored. -/
def storeBar (s : PriceHandlerState) (ev : Event) : PriceHandlerState :=
  match ev with
  | .bar ticker time _ _ _ _ close_price _ =>
    { s with tickers := s.tickers.map (fun e =>
        if e.1 = ticker then
          (e.1, { e.2 with close := some close_price, timestamp := some time })
        else e) }
  | _ => s

/-- The sort key used by `OHLCVPriceHandler._merge_sort_ticker_data`
(`sorted(events, key=lambda x: x.time)`).  That method sorts only the
`BarEvent`s and `EODEvent`s it just built, all of which carry `.time`; the
key is extended to the remaining variants (`FillEvent.timestamp`, default
0) only so that it is total. -/
def Event.timeKey : Event → ℕ
  | .bar _ time _ _ _ _ _ _ => time
  | .tick _ time _ _ => time
  | .order _ _ _ => 0
  | .fill timestamp _ _ _ _ _ _ => timestamp.getD 0
  | .eod time => time

/-- The final step of `OHLCVPriceHandler._merge_sort_ticker_data`: the
built event list is sorted by time (`sorted` is a stable merge sort) and
streamed in that order. -/
def merge_sort_ticker_data (events : List Event) : List Event :=
  events.mergeSort (fun a b => a.timeKey ≤ b.timeKey)

/-!
## Concrete states used by the witnesses and counterexamples
-/

/-- A constant close-price snapshot: every ticker closes at 5. -/
def closeFive : String → ℚ := fun _ => 5

/-- A bar-based price handler that has streamed nothing yet (no ticker
subscribed). -/
def emptyBarHandler : PriceHandlerState := { tickers := [], istick := false }

/-- A tick-based price handler holding stored bid/ask (and close and
timestamp) data for ticker `"A"`. -/
def tickHandlerA : PriceHandlerState :=
  { tickers := [("A", { bid := some 10, ask := some 11, close := some 10,
                        timestamp := some 1 })],
    istick := true }

/-- A bar-based price handler holding a stored close and timestamp for
ticker `"A"`. -/
def barHandlerA : PriceHandlerState :=
  { tickers := [("A", { close := some 10, timestamp := some 1 })],
    istick := false }

/-- The two-bar scenario of the claim: the external stream for ticker
`"A"`, one bar at t = 1 and one at t = 2 (`OHLCVPriceHandler` emits bars
with all four OHLC fields equal to the close). -/
def scenarioBar1 : Event := .bar "A" 1 86400 100 100 100 100 1000
def scenarioBar2 : Event := .bar "A" 2 86400 101 101 101 101 1000

/-- The scenario strategy: on the bar at t = 1 it emits one Buy order for
10 shares of `"A"`; on every other event it emits nothing. -/
def scenarioOnBar : Event → List Event
  | .bar _ 1 _ _ _ _ _ _ => [.order "A" "BOT" 10]
  | _ => []

/-- A strategy callback that never emits. -/
def silentStrategy : Event → List Event := fun _ => []

/-- The price handler at session start for the scenario: ticker `"A"`
subscribed, nothing streamed yet. -/
def scenarioHandler0 : PriceHandlerState :=
  { tickers := [("A", {})], istick := false }

/-- The order the scenario strategy emits on the t = 1 bar. -/
def scenarioOrder : Event := .order "A" "BOT" 10

/-- The fill the simulated execution handler produces for that order:
filled at the stored close 100 with commission
`min(0.5 * 100 * 10, max(1.0, 0.005 * 10)) = 1`. -/
def scenarioFill : Event := .fill (some 1) "A" "BOT" 10 "Oslo Boers" 100 1

/-!
## Helper lemmas
-/

theorem Position.update_market_value_quantity (p : Position) (b a : ℚ) :
    (p.update_market_value b a).quantity = p.quantity := rfl

theorem Position.update_market_value_cost_basis (p : Position) (b a : ℚ) :
    (p.update_market_value b a).cost_basis = p.cost_basis := rfl

theorem Position.update_market_value_realised (p : Position) (b a : ℚ) :
    (p.update_market_value b a).realised_pnl = p.realised_pnl := rfl

/-- Re-marking a position at the same bid/ask is the identity on the
already-marked position. -/
theorem Position.update_market_value_idem (p : Position) (b a : ℚ) :
    (p.update_market_value b a).update_market_value b a =
      p.update_market_value b a := rfl

/-- Re-marking every position of a ticker map at the same snapshot is the
identity on the already-marked map. -/
theorem map_update_idem (close : String → ℚ) (l : List (String × Position)) :
    (l.map (fun e => (e.1, e.2.update_market_value (close e.1) (close e.1)))).map
        (fun e => (e.1, e.2.update_market_value (close e.1) (close e.1)))
      = l.map (fun e => (e.1, e.2.update_market_value (close e.1) (close e.1))) := by
  induction l with
  | nil => rfl
  | cons hd tl ih => simp only [List.map_cons, ih, Position.update_market_value_idem]

theorem Portfolio.update_portfolio_cur_cash (close : String → ℚ) (p : Portfolio) :
    (Portfolio.update_portfolio close p).cur_cash = p.cur_cash := rfl

theorem Portfolio.add_position_cur_cash (close : String → ℚ)
    (action ticker : String) (quantity price commission : ℚ) (p : Portfolio) :
    (Portfolio.add_position close action ticker quantity price commission p).cur_cash
      = p.cur_cash := by
  unfold Portfolio.add_position
  cases h : p.positions.lookup ticker <;> rfl

theorem Portfolio.modify_position_cur_cash (close : String → ℚ)
    (action ticker : String) (quantity price commission : ℚ) (p : Portfolio) :
    (Portfolio.modify_position close action ticker quantity price commission p).1.cur_cash
      = p.cur_cash := by
  unfold Portfolio.modify_position
  cases h : p.positions.lookup ticker
  · rfl
  · rename_i pos
    cases ht : pos.transact_shares action quantity price commission
    · simp [ht]
    · rename_i pos1
      simp only [ht, Portfolio.update_portfolio_cur_cash]
      split <;> rfl

/-!
## Claims
-/

/-- C2: for every call to `transact_position`, a `"BOT"` action decreases
current cash by exactly `quantity * price + commission`, an `"SLD"` action
increases it by exactly `quantity * price - commission`, and no other part
of the operation (position bookkeeping, portfolio revaluation) changes
cash. -/
theorem transact_position_cash (close : String → ℚ) (action ticker : String)
    (quantity price commission : ℚ) (p : Portfolio) :
    (Portfolio.transact_position close action ticker quantity price commission p).1.cur_cash
      = if action = "BOT" then p.cur_cash - (quantity * price + commission)
        else if action = "SLD" then p.cur_cash + (quantity * price - commission)
        else p.cur_cash := by
  unfold Portfolio.transact_position
  by_cases hb : action = "BOT" <;> by_cases hs : action = "SLD" <;>
    simp only [hb, hs, if_true, if_false, ite_true, ite_false] <;>
    first
    | (cases h : Portfolio.positions _ |>.lookup ticker <;>
        simp [h, Portfolio.add_position_cur_cash, Portfolio.modify_position_cur_cash])

/-- C8: `update_portfolio` is idempotent for a fixed price snapshot, and it
changes neither current cash, nor initial cash, nor the closed-positions
record, nor realized PnL, nor the set of active tickers with their
quantities and cost bases. -/
theorem update_portfolio_idempotent_and_frame (close : String → ℚ) (p : Portfolio) :
    Portfolio.update_portfolio close (Portfolio.update_portfolio close p)
        = Portfolio.update_portfolio close p
    ∧ (Portfolio.update_portfolio close p).cur_cash = p.cur_cash
    ∧ (Portfolio.update_portfolio close p).init_cash = p.init_cash
    ∧ (Portfolio.update_portfolio close p).closed_positions = p.closed_positions
    ∧ (Portfolio.update_portfolio close p).realised_pnl = p.realised_pnl
    ∧ (Portfolio.update_portfolio close p).positions.map
        (fun e => (e.1, e.2.quantity, e.2.cost_basis))
      = p.positions.map (fun e => (e.1, e.2.quantity, e.2.cost_basis)) := by
  refine ⟨?_, rfl, rfl, rfl, rfl, ?_⟩
  · cases p
    simp only [Portfolio.update_portfolio, map_update_idem]
  · simp [Portfolio.update_portfolio, List.map_map, Function.comp,
      Position.update_market_value_quantity, Position.update_market_value_cost_basis]

/-- C7 counterexample: constructing an `OrderEvent` with the action
`"XYZ"` (neither `"BOT"` nor `"SLD"`) succeeds — `OrderEvent.__init__`
performs no validation, so the claimed `InvalidAction` failure does not
happen. -/
theorem mkOrderEvent_accepts_invalid_action :
    mkOrderEvent "A" "XYZ" 1 = Except.ok (Event.order "A" "XYZ" 1) := rfl

/-- C7 amended: `OrderEvent` and `FillEvent` construction succeeds for
every action value, storing the action string as given; no validation is
performed and no `InvalidAction` error is ever raised. -/
theorem event_construction_never_fails (ticker action : String) (quantity : ℚ)
    (timestamp : Option ℕ) (exchange : String) (price commission : ℚ) :
    mkOrderEvent ticker action quantity = .ok (.order ticker action quantity)
    ∧ mkFillEvent timestamp ticker action quantity exchange price commission
        = .ok (.fill timestamp ticker action quantity exchange price commission) :=
  ⟨rfl, rfl⟩

/-- C5 counterexample: an Order for the unsubscribed ticker `"GOOG"` does
not complete normally — the call into `execute_order` raises (the missing
close price `None` reaches `0.5 * fill_price * quantity` in
`calculate_commission`, a `TypeError`), so the claimed non-fatal
drop-and-continue behaviour is false. -/
theorem execute_order_unsubscribed_not_ok :
    (execute_order emptyBarHandler (Event.order "GOOG" "BOT" 10)).isOk = false := rfl

/-- C5 amended: an Order whose ticker has no entry in the
`tickers` map of the price handler produces zero Fill events and never reaches the Portfolio
(so cash is unchanged), but it is fatal: `execute_order` raises a
`TypeError`, and because the session loop dispatches `ORDER` events with no
`try/except`, the exception escapes the dispatch boundary and aborts the
session. -/
theorem execute_order_unsubscribed_raises (s : PriceHandlerState)
    (ticker action : String) (quantity : ℚ)
    (h : s.tickers.lookup ticker = none) :
    execute_order s (.order ticker action quantity) = .error PyError.typeError
    ∧ ∀ onBar onTick onEod,
        sessionHandle onBar onTick onEod s (.order ticker action quantity)
          = .error PyError.typeError := by
  have hex : execute_order s (.order ticker action quantity)
      = .error PyError.typeError := by
    cases hs : s.istick <;>
      simp [execute_order, get_last_timestamp, get_best_bid_ask,
        get_last_close, h, hs]
  exact ⟨hex, fun onBar onTick onEod => by simp [sessionHandle, hex]⟩

/-- C5 witness: the amended theorem at the concrete unsubscribed ticker
`"GOOG"` on the empty bar handler. -/
theorem execute_order_unsubscribed_raises_witness :
    execute_order emptyBarHandler (.order "GOOG" "BOT" 10) = .error PyError.typeError
    ∧ sessionHandle silentStrategy silentStrategy silentStrategy emptyBarHandler
        (.order "GOOG" "BOT" 10) = .error PyError.typeError :=
  ⟨(execute_order_unsubscribed_raises emptyBarHandler "GOOG" "BOT" 10 rfl).1,
   (execute_order_unsubscribed_raises emptyBarHandler "GOOG" "BOT" 10 rfl).2
      silentStrategy silentStrategy silentStrategy⟩

/-- C6: evaluation of `execute_order` at the two price-source kinds.  With
a tick source holding stored bid 10 / ask 11 for `"A"`, a Buy order does
not fill at the ask as claimed: the bid/ask lookup raises `TypeError`
(bitwise `&` between a dict and a string in `get_best_bid_ask`) and no
Fill is produced.  With a bar source holding close 10, exactly one Fill is
enqueued at the close price with commission
`min(0.5 * price * quantity, max(1.0, 0.005 * quantity))`, as claimed. -/
theorem execute_order_fill_price_defect :
    execute_order tickHandlerA (Event.order "A" "BOT" 1) = .error PyError.typeError
    ∧ execute_order barHandlerA (Event.order "A" "BOT" 1)
        = .ok [Event.fill (some 1) "A" "BOT" 1 "Oslo Boers" 10
                (min (1/2 * 10 * 1) (max 1 (1/200 * 1)))] := by
  refine ⟨rfl, ?_⟩
  norm_num [execute_order, get_last_timestamp, get_last_close, barHandlerA,
    calculate_commission]

/-- C9: `get_best_bid_ask` at a ticker whose entry stores both a bid (10)
and an ask (11) raises `TypeError` instead of returning the stored pair:
the guard `"bid" in self.tickers[ticker] & "ask" in self.tickers[ticker]`
evaluates `dict & str` first because `&` binds tighter than `in`.  The
intended logical-conjunction guard would have returned `(10, 11)`. -/
theorem get_best_bid_ask_raises_on_stored_pair :
    get_best_bid_ask tickHandlerA "A" = .error PyError.typeError
    ∧ get_best_bid_ask_intended tickHandlerA "A" = (some 10, some 11) :=
  ⟨rfl, rfl⟩

/-- The portfolio equity invariant of spec §3:
`equity = initial_cash + realized_pnl + Σ (market_value − cost_basis +
realized_pnl)` over the active positions. -/
def EquityInvariant (p : Portfolio) : Prop :=
  p.equity = p.init_cash + p.realised_pnl +
    (p.positions.map
      (fun e => e.2.market_value - e.2.cost_basis + e.2.realised_pnl)).sum

theorem update_portfolio_equity (close : String → ℚ) (p : Portfolio) :
    EquityInvariant (Portfolio.update_portfolio close p) := by
  simp only [EquityInvariant, Portfolio.update_portfolio]
  ring

theorem add_position_equity (close : String → ℚ) (action ticker : String)
    (quantity price commission : ℚ) (p : Portfolio) (h : EquityInvariant p) :
    EquityInvariant (Portfolio.add_position close action ticker quantity price commission p) := by
  unfold Portfolio.add_position
  cases hl : p.positions.lookup ticker
  · exact update_portfolio_equity close _
  · exact h

theorem modify_position_equity (close : String → ℚ) (action ticker : String)
    (quantity price commission : ℚ) (p : Portfolio) (h : EquityInvariant p) :
    EquityInvariant (Portfolio.modify_position close action ticker quantity price commission p).1 := by
  unfold Portfolio.modify_position
  cases hl : p.positions.lookup ticker
  · exact h
  · rename_i pos
    cases ht : pos.transact_shares action quantity price commission
    · simp only [ht]; exact h
    · simp only [ht]; exact update_portfolio_equity close _

/-- C1: the spec §3 equity invariant holds at creation, after every
`update_portfolio` call, and is preserved by every `transact_position`
call (whatever the action, ticker, quantity, price and commission — hence
under any interleaving of Buy/Sell transactions across tickers). -/
theorem equity_invariant_holds :
    (∀ cash : ℚ, EquityInvariant (Portfolio.create cash))
    ∧ (∀ (close : String → ℚ) (p : Portfolio),
        EquityInvariant (Portfolio.update_portfolio close p))
    ∧ (∀ (close : String → ℚ) (action ticker : String)
        (quantity price commission : ℚ) (p : Portfolio),
        EquityInvariant p →
        EquityInvariant
          (Portfolio.transact_position close action ticker quantity price commission p).1) := by
  refine ⟨?_, update_portfolio_equity, ?_⟩
  · intro cash
    simp [EquityInvariant, Portfolio.create]
  · intro close action ticker quantity price commission p h
    unfold Portfolio.transact_position
    by_cases hb : action = "BOT" <;> by_cases hs : action = "SLD" <;>
      simp only [hb, hs, if_true, if_false, ite_true, ite_false] <;>
      · cases hl : Portfolio.positions _ |>.lookup ticker <;>
          simp only [hl] <;>
          first
          | exact add_position_equity _ _ _ _ _ _ _ h
          | exact modify_position_equity _ _ _ _ _ _ _ h

/-- C1 witness: a Buy of 1 share at price 2 on a fresh portfolio with cash
1000 keeps the equity invariant. -/
theorem equity_invariant_holds_witness :
    EquityInvariant
      (Portfolio.transact_position closeFive "BOT" "A" 1 2 0 (Portfolio.create 1000)).1 :=
  equity_invariant_holds.2.2 closeFive "BOT" "A" 1 2 0 (Portfolio.create 1000)
    (by simp [EquityInvariant, Portfolio.create])

theorem update_portfolio_closed_positions (close : String → ℚ) (p : Portfolio) :
    (Portfolio.update_portfolio close p).closed_positions = p.closed_positions := rfl

theorem update_portfolio_realised (close : String → ℚ) (p : Portfolio) :
    (Portfolio.update_portfolio close p).realised_pnl = p.realised_pnl := rfl

/-- Looking up a key in the marked-to-market image of a map none of whose
entries carries that key finds nothing. -/
theorem lookup_map_update_none (close : String → ℚ) (ticker : String)
    (l : List (String × Position)) (h : ∀ e ∈ l, e.1 ≠ ticker) :
    ((l.map (fun e => (e.1, e.2.update_market_value (close e.1) (close e.1)))).lookup ticker)
      = none := by
  induction l with
  | nil => rfl
  | cons hd tl ih =>
    have h1 : hd.1 ≠ ticker := h hd (by simp)
    have hb : (ticker == hd.1) = false := by
      simp only [beq_eq_false_iff_ne, ne_eq]
      exact fun e => h1 e.symm
    simp only [List.map_cons, List.lookup, hb]
    exact ih (fun e he => h e (by simp [he]))

/-- Looking up a key in the marked-to-market image of a map from which
every entry with that key has been filtered out finds nothing. -/
theorem lookup_filter_map_none (close : String → ℚ) (ticker : String)
    (l : List (String × Position)) :
    ((l.filter (fun e => e.1 != ticker)).map
      (fun e => (e.1, e.2.update_market_value (close e.1) (close e.1)))).lookup ticker
      = none := by
  refine lookup_map_update_none close ticker _ ?_
  intro e he
  have := (List.mem_filter.mp he).2
  simpa [bne_iff_ne] using this

theorem update_portfolio_nonzero (close : String → ℚ) (p : Portfolio)
    (h : ∀ e ∈ p.positions, e.2.quantity ≠ 0) :
    ∀ e ∈ (Portfolio.update_portfolio close p).positions, e.2.quantity ≠ 0 := by
  intro e he
  simp only [Portfolio.update_portfolio, List.mem_map] at he
  obtain ⟨a, ha, rfl⟩ := he
  simpa [Position.update_market_value_quantity] using h a ha

theorem Position.create_quantity (action ticker : String)
    (init_quantity init_price init_commission bid ask : ℚ) :
    (Position.create action ticker init_quantity init_price init_commission bid ask).quantity
      = if action = "BOT" then init_quantity else -init_quantity := rfl

theorem add_position_nonzero (close : String → ℚ) (action ticker : String)
    (quantity price commission : ℚ) (p : Portfolio)
    (hnz : ∀ e ∈ p.positions, e.2.quantity ≠ 0) (hq : quantity ≠ 0) :
    ∀ e ∈ (Portfolio.add_position close action ticker quantity price commission p).positions,
      e.2.quantity ≠ 0 := by
  unfold Portfolio.add_position
  cases hl : p.positions.lookup ticker
  · apply update_portfolio_nonzero
    intro e he
    rcases List.mem_append.mp he with h1 | h2
    · exact hnz e h1
    · have he2 : e = (ticker,
          Position.create action ticker quantity price commission
            (close ticker) (close ticker)) := by simpa using h2
      subst he2
      simp only [Position.create_quantity]
      split <;> simpa using hq
  · exact hnz

theorem modify_position_nonzero (close : String → ℚ) (action ticker : String)
    (quantity price commission : ℚ) (p : Portfolio)
    (hnz : ∀ e ∈ p.positions, e.2.quantity ≠ 0) :
    ∀ e ∈ (Portfolio.modify_position close action ticker quantity price commission p).1.positions,
      e.2.quantity ≠ 0 := by
  unfold Portfolio.modify_position
  cases hl : p.positions.lookup ticker
  · exact hnz
  · rename_i pos
    cases ht : pos.transact_shares action quantity price commission
    · simp only [ht]; exact hnz
    · rename_i pos1
      simp only [ht]
      split
      · -- the transacted position went to zero and is filtered out
        apply update_portfolio_nonzero
        intro e he
        obtain ⟨hew, hne⟩ := List.mem_filter.mp he
        obtain ⟨a, ha, hae⟩ := List.mem_map.mp hew
        by_cases hat : a.1 = ticker
        · exfalso
          rw [if_pos hat] at hae
          subst hae
          simp [hat] at hne
        · rw [if_neg hat] at hae
          subst hae
          exact hnz a ha
      · -- the transacted position stayed nonzero and was written in place
        rename_i hz
        apply update_portfolio_nonzero
        intro e he
        obtain ⟨a, ha, hae⟩ := List.mem_map.mp he
        by_cases hat : a.1 = ticker
        · rw [if_pos hat] at hae
          subst hae
          simpa using hz
        · rw [if_neg hat] at hae
          subst hae
          exact hnz a ha

/-- C3 counterexample: a Buy of quantity 0 for a previously unseen ticker
`"B"` completes normally (no exception) and leaves a position with
quantity 0 in the active ticker map. -/
theorem zero_quantity_position_stays_active :
    (Portfolio.transact_position closeFive "BOT" "B" 0 10 0 (Portfolio.create 1000)).2 = none
    ∧ (Portfolio.transact_position closeFive "BOT" "B" 0 10 0 (Portfolio.create 1000)).1.positions.map
        (fun e => (e.1, e.2.quantity)) = [("B", 0)] := by
  constructor
  · rfl
  · norm_num [Portfolio.transact_position, Portfolio.add_position, Portfolio.create,
      Portfolio.update_portfolio, Position.create, Position.update_market_value, closeFive]

theorem modify_position_close_archiving (close : String → ℚ)
    (action ticker : String) (quantity price commission : ℚ) (p : Portfolio)
    (pos pos1 : Position)
    (hpos : p.positions.lookup ticker = some pos)
    (ht : pos.transact_shares action quantity price commission = .ok pos1)
    (hq : (pos1.update_market_value (close ticker) (close ticker)).quantity = 0) :
    (Portfolio.modify_position close action ticker quantity price commission p).1.positions.lookup ticker
        = none
    ∧ (Portfolio.modify_position close action ticker quantity price commission p).1.closed_positions
        = p.closed_positions ++ [pos1.update_market_value (close ticker) (close ticker)]
    ∧ (Portfolio.modify_position close action ticker quantity price commission p).1.realised_pnl
        = p.realised_pnl + (pos1.update_market_value (close ticker) (close ticker)).realised_pnl := by
  unfold Portfolio.modify_position
  simp only [hpos, ht, hq, ite_true, if_true]
  refine ⟨?_, rfl, rfl⟩
  exact lookup_filter_map_none close ticker _

/-- C3 (amended): (i) whenever a transaction on a held ticker brings the
quantity of the position to exactly zero, `transact_position` removes it from
the active map, appends it to `closed_positions`, and adds its accumulated
realized PnL to the portfolio-level realized PnL; (ii) positions of
nonzero quantity stay nonzero across any transaction of nonzero quantity
— but a zero-quantity transaction on a fresh ticker can place a
zero-quantity position in the active map (see the counterexample), since
the open path performs no quantity validation. -/
theorem position_close_archiving :
    (∀ (close : String → ℚ) (action ticker : String)
        (quantity price commission : ℚ) (p : Portfolio) (pos pos1 : Position),
        p.positions.lookup ticker = some pos →
        pos.transact_shares action quantity price commission = .ok pos1 →
        (pos1.update_market_value (close ticker) (close ticker)).quantity = 0 →
        (Portfolio.transact_position close action ticker quantity price commission p).1.positions.lookup ticker
            = none
        ∧ (Portfolio.transact_position close action ticker quantity price commission p).1.closed_positions
            = p.closed_positions ++ [pos1.update_market_value (close ticker) (close ticker)]
        ∧ (Portfolio.transact_position close action ticker quantity price commission p).1.realised_pnl
            = p.realised_pnl + (pos1.update_market_value (close ticker) (close ticker)).realised_pnl)
    ∧ (∀ (close : String → ℚ) (action ticker : String)
        (quantity price commission : ℚ) (p : Portfolio),
        (∀ e ∈ p.positions, e.2.quantity ≠ 0) → quantity ≠ 0 →
        ∀ e ∈ (Portfolio.transact_position close action ticker quantity price commission p).1.positions,
          e.2.quantity ≠ 0) := by
  constructor
  · intro close action ticker quantity price commission p pos pos1 hpos ht hq
    unfold Portfolio.transact_position
    by_cases hb : action = "BOT"
    · subst hb
      rw [if_pos rfl]
      simp only [hpos]
      exact modify_position_close_archiving close "BOT" ticker quantity price
        commission _ pos pos1 hpos ht hq
    · by_cases hs : action = "SLD"
      · subst hs
        rw [if_neg hb, if_pos rfl]
        simp only [hpos]
        exact modify_position_close_archiving close "SLD" ticker quantity price
          commission _ pos pos1 hpos ht hq
      · rw [if_neg hb, if_neg hs]
        simp only [hpos]
        exact modify_position_close_archiving close action ticker quantity price
          commission _ pos pos1 hpos ht hq
  · intro close action ticker quantity price commission p hnz hq
    unfold Portfolio.transact_position
    by_cases hb : action = "BOT" <;> by_cases hs : action = "SLD" <;>
      simp only [hb, hs, if_true, if_false, ite_true, ite_false] <;>
      · cases hl : Portfolio.positions _ |>.lookup ticker <;>
        simp only [hl] <;>
        first
        | exact add_position_nonzero close _ ticker _ price commission _ hnz hq
        | exact modify_position_nonzero close _ ticker _ price commission _ hnz

/-- A one-ticker portfolio literal used by witnesses: long 10 shares of
`"A"` at cost basis 1000 with 5 commission paid. -/
def witPosA : Position :=
  { ticker := "A", quantity := 10, cost_basis := 1000, commission := 5,
    realised_pnl := 0, unrealised_pnl := 0, market_value := 0 }

def witPortfolioA : Portfolio :=
  { init_cash := 100, equity := 100, cur_cash := 100,
    positions := [("A", witPosA)], closed_positions := [],
    realised_pnl := 0, unrealised_pnl := 0 }

/-- The position produced by selling all 10 shares of `witPosA` at 110
with commission 5: flat, realized PnL `(110 − 100) * 10 = 100`. -/
def witPosA1 : Position :=
  { ticker := "A", quantity := 0, cost_basis := 0, commission := 10,
    realised_pnl := 100, unrealised_pnl := 0, market_value := 0 }

/-- C3 witness: instantiating both halves of the amended claim — the
closing Sell on `witPortfolioA` archives the flat position, and a Buy of
quantity 1 on a fresh portfolio leaves no zero-quantity position. -/
theorem position_close_archiving_witness :
    ((Portfolio.transact_position closeFive "SLD" "A" 10 110 5 witPortfolioA).1.positions.lookup "A"
        = none
      ∧ (Portfolio.transact_position closeFive "SLD" "A" 10 110 5 witPortfolioA).1.closed_positions
          = witPortfolioA.closed_positions
              ++ [witPosA1.update_market_value (closeFive "A") (closeFive "A")]
      ∧ (Portfolio.transact_position closeFive "SLD" "A" 10 110 5 witPortfolioA).1.realised_pnl
          = witPortfolioA.realised_pnl
              + (witPosA1.update_market_value (closeFive "A") (closeFive "A")).realised_pnl)
    ∧ (∀ e ∈ (Portfolio.transact_position closeFive "BOT" "A" 1 2 0 (Portfolio.create 1000)).1.positions,
        e.2.quantity ≠ 0) :=
  ⟨position_close_archiving.1 closeFive "SLD" "A" 10 110 5 witPortfolioA witPosA witPosA1
      rfl
      (by simp [Position.transact_shares, witPosA, witPosA1]; norm_num)
      rfl,
   position_close_archiving.2 closeFive "BOT" "A" 1 2 0 (Portfolio.create 1000)
      (by simp [Portfolio.create])
      (by norm_num)⟩

/-- C10: when the action is neither `"BOT"` nor `"SLD"`, `transact_position`
leaves current cash completely unchanged, yet the operation is still
routed to the add-position path (ticker absent) or the modify-position
path (ticker held) — the cash update and the position routing are guarded
independently. -/
theorem transact_position_other_action (close : String → ℚ)
    (action ticker : String) (quantity price commission : ℚ) (p : Portfolio)
    (hb : action ≠ "BOT") (hs : action ≠ "SLD") :
    (Portfolio.transact_position close action ticker quantity price commission p).1.cur_cash
        = p.cur_cash
    ∧ Portfolio.transact_position close action ticker quantity price commission p
        = (match p.positions.lookup ticker with
           | none => (Portfolio.add_position close action ticker quantity price commission p, none)
           | some _ => Portfolio.modify_position close action ticker quantity price commission p) := by
  constructor
  · unfold Portfolio.transact_position
    rw [if_neg hb, if_neg hs]
    cases hl : p.positions.lookup ticker <;> simp only [hl]
    · exact Portfolio.add_position_cur_cash close action ticker quantity price commission p
    · exact Portfolio.modify_position_cur_cash close action ticker quantity price commission p
  · unfold Portfolio.transact_position
    rw [if_neg hb, if_neg hs]

/-- C10 witness: the action `"XYZ"` on a fresh portfolio leaves cash at 50
and routes to the add-position path. -/
theorem transact_position_other_action_witness :
    (Portfolio.transact_position closeFive "XYZ" "C" 2 3 1 (Portfolio.create 50)).1.cur_cash
        = (Portfolio.create 50).cur_cash
    ∧ Portfolio.transact_position closeFive "XYZ" "C" 2 3 1 (Portfolio.create 50)
        = (match (Portfolio.create 50).positions.lookup "C" with
           | none => (Portfolio.add_position closeFive "XYZ" "C" 2 3 1 (Portfolio.create 50), none)
           | some _ => Portfolio.modify_position closeFive "XYZ" "C" 2 3 1 (Portfolio.create 50)) :=
  transact_position_other_action closeFive "XYZ" "C" 2 3 1 (Portfolio.create 50)
    (by simp) (by simp)

/-- C4: the session loop is a single FIFO queue and the external stream is
time-sorted.  (i) Dispatching the queue head appends the events it
produces behind the rest of the queue; (ii) the external stream is
consulted only when the queue is empty, so every already-queued or
produced event is dispatched before the next externally-sourced one;
(iii) `_merge_sort_ticker_data` delivers the external events in
non-decreasing `time` order; (iv) in the concrete two-bar scenario (bars
at t = 1 and t = 2, strategy emitting one order on the first), the
dispatch trace is `[bar₁, order, fill, bar₂]` — the fill is dispatched
strictly before the bar at t = 2. -/
theorem session_fifo_order :
    (∀ (σ : Type) (handle : σ → Event → Except PyError (σ × List Event))
        (store : σ → Event → σ) (fuel : ℕ) (s s1 : σ) (e : Event)
        (rest stream produced : List Event),
        handle s e = .ok (s1, produced) →
        runLoop handle store (fuel + 1) s (e :: rest) stream
          = e :: runLoop handle store fuel s1 (rest ++ produced) stream)
    ∧ (∀ (σ : Type) (handle : σ → Event → Except PyError (σ × List Event))
        (store : σ → Event → σ) (fuel : ℕ) (s : σ) (ev : Event)
        (srest : List Event),
        runLoop handle store (fuel + 1) s [] (ev :: srest)
          = runLoop handle store fuel (store s ev) [ev] srest)
    ∧ (∀ events : List Event,
        (merge_sort_ticker_data events).Pairwise
          (fun a b => a.timeKey ≤ b.timeKey))
    ∧ runLoop (sessionHandle scenarioOnBar silentStrategy silentStrategy) storeBar 10
        scenarioHandler0 [] [scenarioBar1, scenarioBar2]
        = [scenarioBar1, scenarioOrder, scenarioFill, scenarioBar2] := by
  refine ⟨?_, ?_, ?_, ?_⟩
  · intro σ handle store fuel s s1 e rest stream produced h
    simp only [runLoop, h]
  · intro σ handle store fuel s ev srest
    rfl
  · intro events
    unfold merge_sort_ticker_data
    refine List.Pairwise.imp (fun h => of_decide_eq_true h) ?_
    refine List.sorted_mergeSort ?_ ?_ events
    · intro a b c h1 h2
      exact decide_eq_true
        (Nat.le_trans (of_decide_eq_true h1) (of_decide_eq_true h2))
    · intro a b
      simpa using Nat.le_total a.timeKey b.timeKey
  · simp [runLoop, sessionHandle, scenarioOnBar, silentStrategy, storeBar,
      scenarioHandler0, scenarioBar1, scenarioBar2, scenarioOrder, scenarioFill,
      execute_order, get_last_timestamp, get_last_close, calculate_commission]
    norm_num

/-- C4 witness: the queue-step equation at a concrete dispatch whose
handler call returns normally. -/
theorem session_fifo_order_witness :
    runLoop (sessionHandle silentStrategy silentStrategy silentStrategy) storeBar 1
        emptyBarHandler [Event.eod 0] []
      = Event.eod 0 :: runLoop (sessionHandle silentStrategy silentStrategy silentStrategy)
          storeBar 0 emptyBarHandler ([] ++ []) [] :=
  session_fifo_order.1 PriceHandlerState
    (sessionHandle silentStrategy silentStrategy silentStrategy) storeBar 0
    emptyBarHandler emptyBarHandler (Event.eod 0) [] [] [] rfl

end Backtester
